import Mathlib

/-!
Verification development for the NTRT example-model repository
(tensegrity structure assembly, model lifecycle, CPG control).

The repository's visible sources are the class declarations
(`T6Model.h`, `simpleMuscleNP.h`, `LearningSpineJSON.h`, ...) and two
application bootstrap files; the method bodies live in `.cpp` files that
are not part of the excerpt.  The definitions below therefore embed the
data model and the lifecycle/control operations from the specification's
description of those methods, keeping the declared names and signatures
of the headers.  Scalars are modelled as exact rationals and the sine
routine as an explicit function parameter `sinf`, so every definition is
executable.
-/

/-- Lifecycle states of a Model, from the spec's state machine
`Unbuilt → Built → Stepping → Torn Down` (teardown returns to `Unbuilt`). -/
inductive LifecycleState where
  | unbuilt
  | built
  | stepping
  | tornDown
  deriving DecidableEq, Repr

/-- Structural-assembly failures: malformed StructureSpec
(dangling node reference, degenerate rod/muscle, duplicate node index). -/
inductive StructuralError where
  | duplicateNodeIndex
  | danglingNodeRef
  | degenerateRod
  | degenerateMuscle
  deriving DecidableEq, Repr

/-- The error taxonomy of the spec that surfaces synchronously to callers:
structural errors from `setup`, learned-parameter shape mismatches from the
config mapper, lifecycle violations, and a non-positive `dt` passed to `step`. -/
inductive TGError where
  | structural : StructuralError → TGError
  | configMismatch
  | lifecycleViolation
  | nonPositiveDt
  deriving DecidableEq, Repr

/-- A node of a StructureSpec: integer index and 3-D position. -/
structure SpecNode where
  idx : Nat
  x : ℚ
  y : ℚ
  z : ℚ
  deriving DecidableEq, Repr

/-- A rod of a StructureSpec: an ordered pair of node indices. -/
structure RodSpec where
  n1 : Nat
  n2 : Nat
  deriving DecidableEq, Repr

/-- Role tag of a muscle: active or passive. -/
inductive MuscleRole where
  | active
  | passive
  deriving DecidableEq, Repr

/-- A muscle of a StructureSpec: an ordered pair of node indices plus a role. -/
structure MuscleSpec where
  n1 : Nat
  n2 : Nat
  role : MuscleRole
  deriving DecidableEq, Repr

/-- Declarative node/rod/muscle description of a tensegrity unit. -/
structure StructureSpec where
  nodes : List SpecNode
  rods : List RodSpec
  muscles : List MuscleSpec
  deriving DecidableEq, Repr

/-- The declared node indices, in declaration order. -/
def StructureSpec.nodeIndices (s : StructureSpec) : List Nat :=
  s.nodes.map (fun nd => nd.idx)

/-- Position of the node with a given index, if declared. -/
def StructureSpec.posOf (s : StructureSpec) (i : Nat) : Option (ℚ × ℚ × ℚ) :=
  (s.nodes.find? (fun nd => nd.idx == i)).map (fun nd => (nd.x, nd.y, nd.z))

/-- Modelled from the spec: the StructureBuilder validation performed by
`setup` (the bodies of `T6Model::setup` / the tgcreator builder are not in
the excerpt).  Checks, in order: duplicate node indices; rods or muscles
referencing an undefined node index (dangling); rods with coincident
endpoints (same node or zero length); muscles whose two attachment points
are not distinct. -/
def StructureSpec.validate (s : StructureSpec) : Option StructuralError :=
  if ¬ s.nodeIndices.Nodup then
    some .duplicateNodeIndex
  else if s.rods.any (fun r => ¬ (r.n1 ∈ s.nodeIndices ∧ r.n2 ∈ s.nodeIndices)) then
    some .danglingNodeRef
  else if s.muscles.any (fun mu => ¬ (mu.n1 ∈ s.nodeIndices ∧ mu.n2 ∈ s.nodeIndices)) then
    some .danglingNodeRef
  else if s.rods.any (fun r => r.n1 = r.n2 ∨ s.posOf r.n1 = s.posOf r.n2) then
    some .degenerateRod
  else if s.muscles.any (fun mu => mu.n1 = mu.n2) then
    some .degenerateMuscle
  else
    none

/-- A rod after assembly: its rigid-body index (declaration order) and
its endpoint node indices. -/
structure BuiltRod where
  idx : Nat
  n1 : Nat
  n2 : Nat
  deriving DecidableEq, Repr

/-- A muscle after assembly: its actuator index (declaration order), its
endpoint node indices and its fixed role (group membership). -/
structure BuiltMuscle where
  idx : Nat
  n1 : Nat
  n2 : Nat
  role : MuscleRole
  deriving DecidableEq, Repr

/-- Modelled from the spec: deterministic assembly of rigid bodies in
rod-declaration order, indices assigned by position. -/
def buildRods (s : StructureSpec) : List BuiltRod :=
  s.rods.mapIdx (fun i r => ⟨i, r.n1, r.n2⟩)

/-- Modelled from the spec: deterministic assembly of cable actuators in
muscle-declaration order, indices assigned by position, role preserved. -/
def buildMuscles (s : StructureSpec) : List BuiltMuscle :=
  s.muscles.mapIdx (fun i mu => ⟨i, mu.n1, mu.n2, mu.role⟩)

/-- A phase-coupling edge of the CPG network: ordered pair of oscillator
indices with a coupling weight. -/
structure CPGEdge (n : Nat) where
  src : Fin n
  tgt : Fin n
  weight : ℚ
  deriving DecidableEq

/-- A bank of `n` coupled oscillators: per-oscillator phase, frequency,
amplitude and bias, plus the list of coupling edges (set once at
configuration, immutable during a run). -/
structure CPGNet (n : Nat) where
  phase : Fin n → ℚ
  freq : Fin n → ℚ
  amplitude : Fin n → ℚ
  bias : Fin n → ℚ
  edges : List (CPGEdge n)

/-- The coupling term of oscillator `i`: sum over incoming edges of
`weight * sinf (sourcePhase - targetPhase)`, read from the frozen
pre-tick phases of `net`. -/
def CPGNet.couplingTerm (sinf : ℚ → ℚ) {n : Nat} (net : CPGNet n) (i : Fin n) : ℚ :=
  ((net.edges.filter (fun e => e.tgt == i)).map
    (fun e => e.weight * sinf (net.phase e.src - net.phase e.tgt))).sum

/-- The post-tick phase of oscillator `i`: forward-Euler integration of
frequency plus coupling with the same `dt`, from the pre-tick phases. -/
def CPGNet.newPhase (sinf : ℚ → ℚ) {n : Nat} (net : CPGNet n) (dt : ℚ) (i : Fin n) : ℚ :=
  net.phase i + net.freq i * dt + dt * net.couplingTerm sinf i

/-- Modelled from the spec: one synchronous tick of the CPG network
(`CPGNetwork`'s implementation is not in the excerpt).  Every oscillator
advances from the previous tick's phases; frequencies, amplitudes,
biases and edges are unchanged. -/
def CPGNet.tick (sinf : ℚ → ℚ) {n : Nat} (net : CPGNet n) (dt : ℚ) : CPGNet n :=
  { net with phase := fun i => net.newPhase sinf dt i }

/-- A sequential presentation of the tick: oscillators are visited in the
order given by `order`, each update still reading only the frozen pre-tick
phases of `net` (the spec's ordering guarantee). -/
def CPGNet.tickInOrder (sinf : ℚ → ℚ) {n : Nat} (net : CPGNet n) (dt : ℚ)
    (order : List (Fin n)) : CPGNet n :=
  { net with
      phase := order.foldl (fun f i => Function.update f i (net.newPhase sinf dt i)) net.phase }

/-- `t` consecutive ticks of width `dt`. -/
def CPGNet.tickN (sinf : ℚ → ℚ) {n : Nat} (net : CPGNet n) (dt : ℚ) : Nat → CPGNet n
  | 0 => net
  | t + 1 => (net.tickN sinf dt t).tick sinf dt

/-- The output an oscillator emits: `bias + amplitude * sinf phase`. -/
def CPGNet.output (sinf : ℚ → ℚ) {n : Nat} (net : CPGNet n) (i : Fin n) : ℚ :=
  net.bias i + net.amplitude i * sinf (net.phase i)

/-- The state of a Model (as declared by `T6Model.h` / `simpleMuscleNP.h`):
lifecycle phase, the CPG bank driving it, per-actuator targets, the built
structure (nodes, rods, muscle collections by role), attached controller
ids, child-model ids, and accumulated simulation time. -/
structure TGModel where
  lifecycle : LifecycleState
  nOsc : Nat
  cpg : CPGNet nOsc
  targets : List ℚ
  scales : List ℚ
  offsets : List ℚ
  nodes : List SpecNode
  rods : List BuiltRod
  allMuscles : List BuiltMuscle
  passiveMuscles : List BuiltMuscle
  activeMuscles : List BuiltMuscle
  controllers : List Nat
  children : List Nat
  totalTime : ℚ

/-- Modelled from the spec: the Model constructor (the `.cpp` bodies are
not in the excerpt).  Muscle collections are empty until most of the way
through `setup`, no controllers attached, zero accumulated time. -/
def TGModel.init : TGModel :=
  { lifecycle := .unbuilt
    nOsc := 0
    cpg := { phase := fun i => i.elim0, freq := fun i => i.elim0,
             amplitude := fun i => i.elim0, bias := fun i => i.elim0, edges := [] }
    targets := []
    scales := []
    offsets := []
    nodes := []
    rods := []
    allMuscles := []
    passiveMuscles := []
    activeMuscles := []
    controllers := []
    children := []
    totalTime := 0 }

/-- Attach a controller before `setup`; the Model records a reference. -/
def TGModel.attach (m : TGModel) (c : Nat) : TGModel :=
  { m with controllers := m.controllers ++ [c] }

/-- Modelled from the spec: `setup(world)` (body not in the excerpt).
Valid only from `Unbuilt`; validates the StructureSpec and on any
StructuralError changes nothing; otherwise builds rods and muscles in
declaration order, populates the actuator-by-role collections, and
transitions to `Built`.  The built content is a function of the spec
alone, so assembly is deterministic. -/
def TGModel.setup (m : TGModel) (s : StructureSpec) : TGModel × Option TGError :=
  if m.lifecycle ≠ .unbuilt then (m, some .lifecycleViolation)
  else
    match s.validate with
    | some e => (m, some (.structural e))
    | none =>
      ({ m with
          lifecycle := .built
          nodes := s.nodes
          rods := buildRods s
          allMuscles := buildMuscles s
          passiveMuscles := (buildMuscles s).filter (fun mu => mu.role == .passive)
          activeMuscles := (buildMuscles s).filter (fun mu => mu.role == .active)
          targets := List.replicate s.muscles.length 0 }, none)

/-- Modelled from the spec: `teardown()` (body not in the excerpt).
Releases all owned rigid bodies and actuators, deletes child models,
returns to `Unbuilt`; attached controllers are notified but NOT destroyed. -/
def TGModel.teardown (m : TGModel) : TGModel :=
  { m with
      lifecycle := .unbuilt
      nodes := []
      rods := []
      allMuscles := []
      passiveMuscles := []
      activeMuscles := []
      targets := []
      children := [] }

/-- Modelled from the spec: `step(dt)` (body not in the excerpt).  Valid
only from `Built`/`Stepping`; rejects `dt ≤ 0` before any mutation; on
success runs the attached controllers' step hooks over the actuator
targets (`hook`), ticks the CPG network once, writes each oscillator's
output through the per-group affine scale/offset into the targets, and
transitions to `Stepping`.  Child models are stepped recursively by the
framework; the child-id list itself is unchanged. -/
def TGModel.step (sinf : ℚ → ℚ) (hook : Nat → List ℚ → List ℚ)
    (m : TGModel) (dt : ℚ) : TGModel × Option TGError :=
  if m.lifecycle = .built ∨ m.lifecycle = .stepping then
    if dt ≤ 0 then (m, some .nonPositiveDt)
    else
      let targets1 := m.controllers.foldl (fun ts c => hook c ts) m.targets
      let cpg1 := m.cpg.tick sinf dt
      let targets2 := targets1.mapIdx (fun i tv =>
        if h : i < m.nOsc then
          m.scales.getD i 1 * cpg1.output sinf ⟨i, h⟩ + m.offsets.getD i 0
        else tv)
      ({ m with
          lifecycle := .stepping
          cpg := cpg1
          targets := targets2
          totalTime := m.totalTime + dt }, none)
  else (m, some .lifecycleViolation)

/-- Modelled from the headers: `onVisit` dispatches the model into the
visitor's render function; the default `tgModel` dispatch does nothing to
the model.  The visitor is identified by an id. -/
def TGModel.onVisit (m : TGModel) (_r : Nat) : TGModel := m

/-- Modelled from the spec: the destructor.  Runs `teardown` (releasing
physics objects) and then, unlike `teardown`, deletes the attached
controllers; returns the final state and the list of deleted controllers. -/
def TGModel.destruct (m : TGModel) : TGModel × List Nat :=
  ({ m.teardown with controllers := [] }, m.controllers)

/-- Accessor declared `const` in `T6Model.h`: the full muscle collection. -/
def TGModel.getAllMuscles (m : TGModel) : List BuiltMuscle := m.allMuscles

/-- Accessor declared `const` in `T6Model.h`: the passive muscle group. -/
def TGModel.getPassiveMuscles (m : TGModel) : List BuiltMuscle := m.passiveMuscles

/-- Accessor declared `const` in `T6Model.h`: the active muscle group. -/
def TGModel.getActiveMuscles (m : TGModel) : List BuiltMuscle := m.activeMuscles

/-- Impedance-controlled muscle group: one stiffness/damping/target triple
applied uniformly to its member actuators, plus a count of reported
clamp events (the observable record of ControlRangeWarnings). -/
structure ImpedanceMuscleGroup where
  stiffness : ℚ
  damping : ℚ
  target : ℚ
  clampCount : Nat
  muscles : List Nat
  deriving DecidableEq, Repr

/-- Modelled from the spec: `setControl(stiffness, damping, target)`
(`tgImpedanceController` is not in the excerpt).  Never rejects: negative
stiffness or damping is clamped to zero and the clamp event is counted;
the target is applied unconditionally and execution continues. -/
def ImpedanceMuscleGroup.setControl (g : ImpedanceMuscleGroup)
    (k d t : ℚ) : ImpedanceMuscleGroup :=
  { g with
      stiffness := max k 0
      damping := max d 0
      target := t
      clampCount := g.clampCount + (if k < 0 ∨ d < 0 then 1 else 0) }

/-- The 2-D learned-parameter array addressed by (oscillator index,
node-parameter index), as a row list. -/
def Array2D : Type := List (List ℚ)

/-- The 4-D learned-parameter array addressed by (source oscillator,
target oscillator, muscle-group role, edge-parameter index). -/
def Array4D : Type := List (List (List (List ℚ)))

/-- The CPG controller configuration state of `LearningSpineJSON` /
`BaseSpineCPGControl`: the oscillator/group count derived from structure
assembly, the stored parameter arrays, a configured flag, and fields
unrelated to the learned arrays (segment count, group roles). -/
structure SpineControl where
  oscillatorCount : Nat
  nodeParams : List (List ℚ)
  edgeParams : List (List (List (List ℚ)))
  cpgConfigured : Bool
  segments : Nat
  groupRoles : List MuscleRole
  deriving DecidableEq, Repr

/-- Modelled from the spec: `LearningSpineJSON::setupCPGs` (body not in
the excerpt).  Checks that the first dimension of both learned-parameter
arrays equals the oscillator/group count derived from structure assembly;
on mismatch rejects with a ConfigMismatchError, leaving the configuration
untouched; on a correct shape stores both arrays whole (no truncation or
padding) and marks the CPG configured, altering nothing else. -/
def SpineControl.setupCPGs (cs : SpineControl) (nodeActions : Array2D)
    (edgeActions : Array4D) : SpineControl × Option TGError :=
  if nodeActions.length ≠ cs.oscillatorCount then (cs, some .configMismatch)
  else if edgeActions.length ≠ cs.oscillatorCount then (cs, some .configMismatch)
  else
    ({ cs with
        nodeParams := nodeActions
        edgeParams := edgeActions
        cpgConfigured := true }, none)

/-- Modelled from the spec: the first control tick of the spine controller
refuses to run before a successful `setupCPGs`, so a shape mismatch is
caught before the first control tick. -/
def SpineControl.controlTick (cs : SpineControl) : Option TGError :=
  if cs.cpgConfigured then none else some .configMismatch

/-- The parts of a C++ member-function declaration relevant here, read
off the headers under `src/`: whether the method itself is
const-qualified and whether its visitor parameter is taken by const
reference. -/
structure CppMethodSig where
  constQualified : Bool
  visitorParamConst : Bool
  deriving DecidableEq, Repr

/-- From `src/btietz/muscleNPTests/simpleMuscleNP.h` line 85:
`virtual void onVisit(const tgModelVisitor& r) const;`. -/
def simpleMuscleNPOnVisitSig : CppMethodSig :=
  { constQualified := true, visitorParamConst := true }

/-- From `src/jbruce/sineWaveEscapeController/T6Model.h` line 90:
`virtual void onVisit(tgModelVisitor& r);` — not const-qualified. -/
def t6ModelOnVisitSig : CppMethodSig :=
  { constQualified := false, visitorParamConst := false }

/-- From `src/steve/T12SuperBallPayload/T12SuperBallPayload.h`:
`virtual void onVisit(tgModelVisitor& r);` — not const-qualified. -/
def t12SuperBallOnVisitSig : CppMethodSig :=
  { constQualified := false, visitorParamConst := false }

/-- The `onVisit` declarations of the model classes in the excerpt that
declare one. -/
def onVisitSigs : List CppMethodSig :=
  [simpleMuscleNPOnVisitSig, t6ModelOnVisitSig, t12SuperBallOnVisitSig]

/-- A model that has completed `setup`: the state from which `step` is legal. -/
def builtModel : TGModel := { TGModel.init with lifecycle := .built }

/-- A concrete impedance muscle group used to exercise `setControl`. -/
def sampleGroup : ImpedanceMuscleGroup :=
  { stiffness := 1, damping := 1, target := 0, clampCount := 0, muscles := [0, 1] }

/-- A concrete spine-controller configuration with two oscillators. -/
def sampleControl : SpineControl :=
  { oscillatorCount := 2, nodeParams := [], edgeParams := [],
    cpgConfigured := false, segments := 7, groupRoles := [.active, .passive] }

/-- A 2-D parameter array with one row: wrong first dimension for
`sampleControl`. -/
def shortRows : Array2D := [[1, 2]]

/-- A 2-D parameter array with two rows: the correct first dimension. -/
def fullRows : Array2D := [[1, 2], [3, 4]]

/-- A 4-D parameter array whose first dimension is two. -/
def fullEdges : Array4D := [[[[0]]], [[[1]]]]

/-- A StructureSpec with a duplicate node index: validation must fail. -/
def dupSpec : StructureSpec :=
  { nodes := [⟨0, 0, 0, 0⟩, ⟨0, 1, 0, 0⟩], rods := [], muscles := [] }

/-- A small well-formed StructureSpec: three nodes, two rods, one active
and one passive muscle. -/
def triSpec : StructureSpec :=
  { nodes := [⟨0, 0, 0, 0⟩, ⟨1, 3, 0, 0⟩, ⟨2, 0, 3, 0⟩]
    rods := [⟨0, 1⟩, ⟨1, 2⟩]
    muscles := [⟨0, 1, .active⟩, ⟨0, 2, .passive⟩] }

/-- A concrete two-oscillator network with one coupling edge. -/
def exNet : CPGNet 2 :=
  { phase := ![0, 1], freq := ![1, 2], amplitude := ![1, 1], bias := ![0, 0],
    edges := [⟨0, 1, 1⟩] }

/-- A concrete one-oscillator network whose only edge has weight zero. -/
def exNet1 : CPGNet 1 :=
  { phase := ![1/2], freq := ![2], amplitude := ![3], bias := ![5],
    edges := [⟨0, 0, 0⟩] }

/-- Writing `v i` into position `i` for every `i` of a list, in list
order, yields `v` at the visited positions and the initial function
elsewhere; each write is independent of the accumulated state. -/
theorem foldl_update_apply {n : Nat} (v : Fin n → ℚ) (l : List (Fin n))
    (f0 : Fin n → ℚ) (j : Fin n) :
    (l.foldl (fun f i => Function.update f i (v i)) f0) j =
      if j ∈ l then v j else f0 j := by
  induction l generalizing f0 with
  | nil => simp
  | cons a l ih =>
    simp only [List.foldl_cons, ih, List.mem_cons]
    by_cases hj : j ∈ l
    · simp [hj]
    · by_cases hja : j = a
      · subst hja
        simp [hj, Function.update_same]
      · simp [hj, hja, Function.update_noteq hja]

/-- C6: one tick advances every oscillator's phase by `frequency*dt` plus
`dt` times the sum over incoming coupling edges of
`weight * sinf (sourcePhase - targetPhase)`, every coupling term reading
only the pre-tick phases; consequently visiting the oscillators in any
order that covers them all produces exactly the synchronous post-tick
state, independent of the iteration order. -/
theorem cpg_tick_synchronous_order_independent (sinf : ℚ → ℚ) {n : Nat}
    (net : CPGNet n) (dt : ℚ) (order : List (Fin n))
    (_hdt : 0 < dt) (hcov : ∀ i, i ∈ order) :
    (∀ i, (net.tick sinf dt).phase i =
      net.phase i + net.freq i * dt +
        dt * ((net.edges.filter (fun e => e.tgt == i)).map
          (fun e => e.weight * sinf (net.phase e.src - net.phase e.tgt))).sum) ∧
    net.tickInOrder sinf dt order = net.tick sinf dt := by
  constructor
  · intro i
    rfl
  · unfold CPGNet.tickInOrder CPGNet.tick
    congr 1
    funext j
    have h := foldl_update_apply (fun i => net.newPhase sinf dt i) order net.phase j
    rw [if_pos (hcov j)] at h
    exact h

/-- Witness for C6 at a concrete two-oscillator network, `dt = 1`, with
the reversed iteration order `[1, 0]`. -/
theorem cpg_tick_synchronous_order_independent_witness :
    (0 : ℚ) < 1 ∧ (∀ i : Fin 2, i ∈ [(1 : Fin 2), 0]) ∧
    ((∀ i, (exNet.tick (fun q => q) 1).phase i =
      exNet.phase i + exNet.freq i * 1 +
        1 * ((exNet.edges.filter (fun e => e.tgt == i)).map
          (fun e => e.weight * (fun q => q) (exNet.phase e.src - exNet.phase e.tgt))).sum) ∧
    exNet.tickInOrder (fun q => q) 1 [1, 0] = exNet.tick (fun q => q) 1) :=
  ⟨by decide, by decide,
    cpg_tick_synchronous_order_independent (fun q => q) exNet 1 [1, 0]
      (by decide) (by decide)⟩

/-- A tick changes only the phases: frequencies, amplitudes, biases and
the edge list are untouched, and so remain fixed across any number of
ticks. -/
theorem tickN_fixed_fields (sinf : ℚ → ℚ) {n : Nat} (net : CPGNet n)
    (dt : ℚ) (t : Nat) :
    (net.tickN sinf dt t).freq = net.freq ∧
    (net.tickN sinf dt t).amplitude = net.amplitude ∧
    (net.tickN sinf dt t).bias = net.bias ∧
    (net.tickN sinf dt t).edges = net.edges := by
  induction t with
  | zero => exact ⟨rfl, rfl, rfl, rfl⟩
  | succ t ih => exact ih

/-- When every coupling weight is zero the coupling term vanishes. -/
theorem couplingTerm_of_zero_weights (sinf : ℚ → ℚ) {n : Nat} (net : CPGNet n)
    (hw : ∀ e ∈ net.edges, e.weight = 0) (i : Fin n) :
    net.couplingTerm sinf i = 0 := by
  unfold CPGNet.couplingTerm
  apply List.sum_eq_zero
  intro x hx
  simp only [List.mem_map] at hx
  obtain ⟨e, he, rfl⟩ := hx
  rw [hw e (List.mem_of_mem_filter he), zero_mul]

/-- With all coupling weights zero, `t` ticks advance each phase by
exactly `frequency * (t * dt)`. -/
theorem tickN_phase_of_zero_weights (sinf : ℚ → ℚ) {n : Nat} (net : CPGNet n)
    (dt : ℚ) (hw : ∀ e ∈ net.edges, e.weight = 0) (t : Nat) (i : Fin n) :
    (net.tickN sinf dt t).phase i = net.phase i + net.freq i * (t * dt) := by
  induction t with
  | zero => simp [CPGNet.tickN]
  | succ t ih =>
    have hfields := tickN_fixed_fields sinf net dt t
    have hw2 : ∀ e ∈ (net.tickN sinf dt t).edges, e.weight = 0 := by
      rw [hfields.2.2.2]
      exact hw
    show (net.tickN sinf dt t).newPhase sinf dt i = _
    unfold CPGNet.newPhase
    rw [couplingTerm_of_zero_weights sinf _ hw2 i, ih, hfields.1]
    push_cast
    ring

/-- C7: with every coupling weight zero, oscillator `i`'s output after
`t` ticks of width `dt` is `bias + amplitude * sinf (phase0 + frequency * t * dt)`:
the network behaves as independent free-running sinusoids started from
the configured initial phases. -/
theorem cpg_zero_coupling_free_sinusoids (sinf : ℚ → ℚ) {n : Nat}
    (net : CPGNet n) (dt : ℚ) (t : Nat) (i : Fin n)
    (hw : ∀ e ∈ net.edges, e.weight = 0) :
    (net.tickN sinf dt t).output sinf i =
      net.bias i + net.amplitude i * sinf (net.phase i + net.freq i * (t * dt)) := by
  have hfields := tickN_fixed_fields sinf net dt t
  unfold CPGNet.output
  rw [hfields.2.2.1, hfields.2.1, tickN_phase_of_zero_weights sinf net dt hw t i]

/-- Witness for C7 at a concrete one-oscillator network whose single
edge has weight zero, after two ticks of width one. -/
theorem cpg_zero_coupling_free_sinusoids_witness :
    (∀ e ∈ exNet1.edges, e.weight = 0) ∧
    (exNet1.tickN (fun q => q) 1 2).output (fun q => q) 0 =
      exNet1.bias 0 + exNet1.amplitude 0 *
        (fun q => q) (exNet1.phase 0 + exNet1.freq 0 * (((2 : Nat) : ℚ) * 1)) :=
  ⟨by decide, cpg_zero_coupling_free_sinusoids (fun q => q) exNet1 1 2 0 (by decide)⟩

/-- C1: from `Built` or `Stepping`, `step(dt)` with `dt ≤ 0` is rejected
with a non-positive-dt error and returns the model exactly as it was, so
every oscillator phase and every actuator target is unchanged — for any
controller step hooks. -/
theorem step_nonpositive_dt_rejected (sinf : ℚ → ℚ)
    (hook : Nat → List ℚ → List ℚ) (m : TGModel) (dt : ℚ)
    (hstate : m.lifecycle = .built ∨ m.lifecycle = .stepping) (hdt : dt ≤ 0) :
    TGModel.step sinf hook m dt = (m, some TGError.nonPositiveDt) ∧
    (TGModel.step sinf hook m dt).1.targets = m.targets ∧
    (TGModel.step sinf hook m dt).1.totalTime = m.totalTime := by
  have key : TGModel.step sinf hook m dt = (m, some TGError.nonPositiveDt) := by
    unfold TGModel.step
    rw [if_pos hstate, if_pos hdt]
  exact ⟨key, by rw [key], by rw [key]⟩

/-- Witness for C1: a built model stepped with `dt = 0` under the
identity controller hook. -/
theorem step_nonpositive_dt_rejected_witness :
    (builtModel.lifecycle = .built ∨ builtModel.lifecycle = .stepping) ∧
    (0 : ℚ) ≤ 0 ∧
    (TGModel.step (fun q => q) (fun _ ts => ts) builtModel 0 =
        (builtModel, some TGError.nonPositiveDt) ∧
      (TGModel.step (fun q => q) (fun _ ts => ts) builtModel 0).1.targets =
        builtModel.targets ∧
      (TGModel.step (fun q => q) (fun _ ts => ts) builtModel 0).1.totalTime =
        builtModel.totalTime) :=
  ⟨Or.inl rfl, le_refl 0,
    step_nonpositive_dt_rejected (fun q => q) (fun _ ts => ts) builtModel 0
      (Or.inl rfl) (le_refl 0)⟩

/-- C4: `setControl` with a negative stiffness or damping never rejects
the call: both gains are stored clamped at zero, the clamp event is
reported by incrementing the group's observable clamp counter, and the
target is still applied; in particular a stiffness of -1 is stored as 0. -/
theorem setControl_clamps_negative (g : ImpedanceMuscleGroup) (k d t : ℚ)
    (hneg : k < 0 ∨ d < 0) :
    (g.setControl k d t).stiffness = max k 0 ∧
    (g.setControl k d t).damping = max d 0 ∧
    0 ≤ (g.setControl k d t).stiffness ∧
    0 ≤ (g.setControl k d t).damping ∧
    (k < 0 → (g.setControl k d t).stiffness = 0) ∧
    (d < 0 → (g.setControl k d t).damping = 0) ∧
    (g.setControl k d t).target = t ∧
    (g.setControl k d t).muscles = g.muscles ∧
    (g.setControl k d t).clampCount = g.clampCount + 1 := by
  refine ⟨rfl, rfl, le_max_right _ _, le_max_right _ _, ?_, ?_, rfl, rfl, ?_⟩
  · intro hk
    show max k 0 = 0
    exact max_eq_right hk.le
  · intro hd
    show max d 0 = 0
    exact max_eq_right hd.le
  · show g.clampCount + (if k < 0 ∨ d < 0 then 1 else 0) = g.clampCount + 1
    rw [if_pos hneg]

/-- Witness for C4: requesting stiffness -1 on a concrete group stores
stiffness 0, keeps the call accepted, and bumps the clamp counter. -/
theorem setControl_clamps_negative_witness :
    ((-1 : ℚ) < 0 ∨ (5 : ℚ) < 0) ∧
    ((sampleGroup.setControl (-1) 5 3).stiffness = max (-1) 0 ∧
      (sampleGroup.setControl (-1) 5 3).damping = max 5 0 ∧
      0 ≤ (sampleGroup.setControl (-1) 5 3).stiffness ∧
      0 ≤ (sampleGroup.setControl (-1) 5 3).damping ∧
      ((-1 : ℚ) < 0 → (sampleGroup.setControl (-1) 5 3).stiffness = 0) ∧
      ((5 : ℚ) < 0 → (sampleGroup.setControl (-1) 5 3).damping = 0) ∧
      (sampleGroup.setControl (-1) 5 3).target = 3 ∧
      (sampleGroup.setControl (-1) 5 3).muscles = sampleGroup.muscles ∧
      (sampleGroup.setControl (-1) 5 3).clampCount = sampleGroup.clampCount + 1) :=
  ⟨Or.inl (by decide),
    setControl_clamps_negative sampleGroup (-1) 5 3 (Or.inl (by decide))⟩

/-- On a successful validation, `setup` from `Unbuilt` builds every
structural field as a function of the spec alone and reports no error. -/
theorem setup_ok_fields (m : TGModel) (s : StructureSpec)
    (hm : m.lifecycle = .unbuilt) (hv : s.validate = none) :
    (m.setup s).1.nodes = s.nodes ∧
    (m.setup s).1.rods = buildRods s ∧
    (m.setup s).1.allMuscles = buildMuscles s ∧
    (m.setup s).1.passiveMuscles = (buildMuscles s).filter (fun mu => mu.role == .passive) ∧
    (m.setup s).1.activeMuscles = (buildMuscles s).filter (fun mu => mu.role == .active) ∧
    (m.setup s).1.targets = List.replicate s.muscles.length 0 ∧
    (m.setup s).2 = none ∧
    (m.setup s).1.lifecycle = .built := by
  unfold TGModel.setup
  rw [if_neg (not_not_intro hm), hv]
  exact ⟨rfl, rfl, rfl, rfl, rfl, rfl, rfl, rfl⟩

/-- C5: if validation of the spec fails with a StructuralError, `setup`
from `Unbuilt` surfaces exactly that error and changes nothing: the model
stays `Unbuilt` with its collections exactly as before, so no partially
built structure is ever registered. -/
theorem setup_structural_error_atomic (m : TGModel) (s : StructureSpec)
    (e : StructuralError) (hm : m.lifecycle = .unbuilt)
    (hv : s.validate = some e) :
    m.setup s = (m, some (TGError.structural e)) ∧
    (m.setup s).1.lifecycle = .unbuilt ∧
    (m.setup s).1.nodes = m.nodes ∧
    (m.setup s).1.rods = m.rods ∧
    (m.setup s).1.allMuscles = m.allMuscles ∧
    (m.setup s).1.passiveMuscles = m.passiveMuscles ∧
    (m.setup s).1.activeMuscles = m.activeMuscles ∧
    (m.setup s).1.targets = m.targets := by
  have key : m.setup s = (m, some (TGError.structural e)) := by
    unfold TGModel.setup
    rw [if_neg (not_not_intro hm), hv]
  refine ⟨key, ?_, ?_, ?_, ?_, ?_, ?_, ?_⟩ <;> rw [key]
  exact hm

/-- Witness for C5: a fresh model and a spec with a duplicate node index. -/
theorem setup_structural_error_atomic_witness :
    TGModel.init.lifecycle = .unbuilt ∧
    dupSpec.validate = some .duplicateNodeIndex ∧
    (TGModel.init.setup dupSpec =
        (TGModel.init, some (TGError.structural .duplicateNodeIndex)) ∧
      (TGModel.init.setup dupSpec).1.lifecycle = .unbuilt ∧
      (TGModel.init.setup dupSpec).1.nodes = TGModel.init.nodes ∧
      (TGModel.init.setup dupSpec).1.rods = TGModel.init.rods ∧
      (TGModel.init.setup dupSpec).1.allMuscles = TGModel.init.allMuscles ∧
      (TGModel.init.setup dupSpec).1.passiveMuscles = TGModel.init.passiveMuscles ∧
      (TGModel.init.setup dupSpec).1.activeMuscles = TGModel.init.activeMuscles ∧
      (TGModel.init.setup dupSpec).1.targets = TGModel.init.targets) :=
  ⟨rfl, by decide,
    setup_structural_error_atomic TGModel.init dupSpec .duplicateNodeIndex
      rfl (by decide)⟩

/-- C2: running `setup`, then `teardown`, then `setup` again on the same
spec reproduces an identical structure: the same node ordering, the same
rod and muscle index assignment, and the same muscle-group membership,
with both runs of `setup` succeeding. -/
theorem setup_teardown_setup_deterministic (m : TGModel) (s : StructureSpec)
    (hm : m.lifecycle = .unbuilt) (hv : s.validate = none) :
    (((m.setup s).1.teardown).setup s).1.nodes = (m.setup s).1.nodes ∧
    (((m.setup s).1.teardown).setup s).1.rods = (m.setup s).1.rods ∧
    (((m.setup s).1.teardown).setup s).1.allMuscles = (m.setup s).1.allMuscles ∧
    (((m.setup s).1.teardown).setup s).1.passiveMuscles = (m.setup s).1.passiveMuscles ∧
    (((m.setup s).1.teardown).setup s).1.activeMuscles = (m.setup s).1.activeMuscles ∧
    (m.setup s).2 = none ∧
    (((m.setup s).1.teardown).setup s).2 = none := by
  have h1 := setup_ok_fields m s hm hv
  have h2 := setup_ok_fields ((m.setup s).1.teardown) s rfl hv
  exact ⟨h2.1.trans h1.1.symm,
    h2.2.1.trans h1.2.1.symm,
    h2.2.2.1.trans h1.2.2.1.symm,
    h2.2.2.2.1.trans h1.2.2.2.1.symm,
    h2.2.2.2.2.1.trans h1.2.2.2.2.1.symm,
    h1.2.2.2.2.2.2.1,
    h2.2.2.2.2.2.2.1⟩

/-- Witness for C2: a fresh model and the small well-formed three-node
spec. -/
theorem setup_teardown_setup_deterministic_witness :
    TGModel.init.lifecycle = .unbuilt ∧
    triSpec.validate = none ∧
    ((((TGModel.init.setup triSpec).1.teardown).setup triSpec).1.nodes =
        (TGModel.init.setup triSpec).1.nodes ∧
      (((TGModel.init.setup triSpec).1.teardown).setup triSpec).1.rods =
        (TGModel.init.setup triSpec).1.rods ∧
      (((TGModel.init.setup triSpec).1.teardown).setup triSpec).1.allMuscles =
        (TGModel.init.setup triSpec).1.allMuscles ∧
      (((TGModel.init.setup triSpec).1.teardown).setup triSpec).1.passiveMuscles =
        (TGModel.init.setup triSpec).1.passiveMuscles ∧
      (((TGModel.init.setup triSpec).1.teardown).setup triSpec).1.activeMuscles =
        (TGModel.init.setup triSpec).1.activeMuscles ∧
      (TGModel.init.setup triSpec).2 = none ∧
      (((TGModel.init.setup triSpec).1.teardown).setup triSpec).2 = none) :=
  ⟨rfl, by decide,
    setup_teardown_setup_deterministic TGModel.init triSpec rfl (by decide)⟩

/-- C3: the CPG config mapper rejects a learned-parameter array pair with
a ConfigMismatchError whenever either array's first dimension differs
from the oscillator count, leaving the configuration untouched (nothing
truncated or padded) and the first control tick still refusing to run;
a correctly shaped pair is accepted with both arrays stored whole and no
unrelated field altered. -/
theorem setupCPGs_shape_checked (cs : SpineControl) (na : Array2D)
    (ea : Array4D) :
    (na.length ≠ cs.oscillatorCount ∨ ea.length ≠ cs.oscillatorCount →
      cs.setupCPGs na ea = (cs, some TGError.configMismatch) ∧
      (cs.cpgConfigured = false →
        ((cs.setupCPGs na ea).1).controlTick = some TGError.configMismatch)) ∧
    (na.length = cs.oscillatorCount → ea.length = cs.oscillatorCount →
      (cs.setupCPGs na ea).2 = none ∧
      (cs.setupCPGs na ea).1.nodeParams = na ∧
      (cs.setupCPGs na ea).1.edgeParams = ea ∧
      (cs.setupCPGs na ea).1.oscillatorCount = cs.oscillatorCount ∧
      (cs.setupCPGs na ea).1.segments = cs.segments ∧
      (cs.setupCPGs na ea).1.groupRoles = cs.groupRoles) := by
  constructor
  · intro hmis
    have key : cs.setupCPGs na ea = (cs, some TGError.configMismatch) := by
      unfold SpineControl.setupCPGs
      by_cases h1 : na.length = cs.oscillatorCount
      · rcases hmis with h | h
        · exact absurd h1 h
        · rw [if_neg (not_not_intro h1), if_pos h]
      · rw [if_pos h1]
    refine ⟨key, ?_⟩
    intro hcfg
    rw [key]
    show SpineControl.controlTick cs = some TGError.configMismatch
    unfold SpineControl.controlTick
    rw [hcfg]
    rfl
  · intro h1 h2
    unfold SpineControl.setupCPGs
    rw [if_neg (not_not_intro h1), if_neg (not_not_intro h2)]
    exact ⟨rfl, rfl, rfl, rfl, rfl, rfl⟩

/-- Witness for C3: a two-oscillator configuration rejecting a one-row
array and accepting a two-row array with unrelated fields intact. -/
theorem setupCPGs_shape_checked_witness :
    (shortRows.length ≠ sampleControl.oscillatorCount ∨
      fullEdges.length ≠ sampleControl.oscillatorCount) ∧
    (sampleControl.setupCPGs shortRows fullEdges =
        (sampleControl, some TGError.configMismatch) ∧
      (sampleControl.cpgConfigured = false →
        ((sampleControl.setupCPGs shortRows fullEdges).1).controlTick =
          some TGError.configMismatch)) ∧
    fullRows.length = sampleControl.oscillatorCount ∧
    fullEdges.length = sampleControl.oscillatorCount ∧
    ((sampleControl.setupCPGs fullRows fullEdges).2 = none ∧
      (sampleControl.setupCPGs fullRows fullEdges).1.nodeParams = fullRows ∧
      (sampleControl.setupCPGs fullRows fullEdges).1.edgeParams = fullEdges ∧
      (sampleControl.setupCPGs fullRows fullEdges).1.oscillatorCount =
        sampleControl.oscillatorCount ∧
      (sampleControl.setupCPGs fullRows fullEdges).1.segments =
        sampleControl.segments ∧
      (sampleControl.setupCPGs fullRows fullEdges).1.groupRoles =
        sampleControl.groupRoles) :=
  ⟨Or.inl (by decide),
    (setupCPGs_shape_checked sampleControl shortRows fullEdges).1
      (Or.inl (by decide)),
    by decide, by decide,
    (setupCPGs_shape_checked sampleControl fullRows fullEdges).2
      (by decide) (by decide)⟩

/-- C8: `teardown` releases the owned rigid bodies and actuators but
leaves the attached controller list exactly as it was; among all the
lifecycle operations only the destructor removes the controllers, and it
deletes precisely the attached ones. -/
theorem teardown_keeps_controllers_destructor_deletes (m : TGModel) :
    m.teardown.controllers = m.controllers ∧
    m.teardown.rods = [] ∧
    m.teardown.allMuscles = [] ∧
    m.teardown.passiveMuscles = [] ∧
    m.teardown.activeMuscles = [] ∧
    m.destruct.2 = m.controllers ∧
    m.destruct.1.controllers = [] ∧
    (∀ s, (m.setup s).1.controllers = m.controllers) ∧
    (∀ sinf hook dt, (TGModel.step sinf hook m dt).1.controllers = m.controllers) ∧
    (∀ r, (m.onVisit r).controllers = m.controllers) := by
  refine ⟨rfl, rfl, rfl, rfl, rfl, rfl, rfl, ?_, ?_, fun _ => rfl⟩
  · intro s
    unfold TGModel.setup
    split
    · rfl
    · split <;> rfl
  · intro sinf hook dt
    unfold TGModel.step
    split
    · split <;> rfl
    · rfl

/-- C9: a freshly constructed model has empty all/passive/active muscle
collections; the accessors are pure projections of the model; and the
collections can only become non-empty through `setup`: `step` leaves
them exactly as they were, `teardown` empties them, and `onVisit` leaves
the model untouched. -/
theorem fresh_muscle_collections_empty :
    TGModel.init.getAllMuscles = [] ∧
    TGModel.init.getPassiveMuscles = [] ∧
    TGModel.init.getActiveMuscles = [] ∧
    (∀ m : TGModel, m.getAllMuscles = m.allMuscles ∧
      m.getPassiveMuscles = m.passiveMuscles ∧
      m.getActiveMuscles = m.activeMuscles) ∧
    (∀ (m : TGModel) (sinf : ℚ → ℚ) (hook : Nat → List ℚ → List ℚ) (dt : ℚ),
      (TGModel.step sinf hook m dt).1.allMuscles = m.allMuscles ∧
      (TGModel.step sinf hook m dt).1.passiveMuscles = m.passiveMuscles ∧
      (TGModel.step sinf hook m dt).1.activeMuscles = m.activeMuscles) ∧
    (∀ m : TGModel, m.teardown.allMuscles = [] ∧
      m.teardown.passiveMuscles = [] ∧
      m.teardown.activeMuscles = []) ∧
    (∀ (m : TGModel) (r : Nat), m.onVisit r = m) := by
  refine ⟨rfl, rfl, rfl, fun m => ⟨rfl, rfl, rfl⟩, ?_,
    fun m => ⟨rfl, rfl, rfl⟩, fun m r => rfl⟩
  intro m sinf hook dt
  unfold TGModel.step
  split
  · split
    · exact ⟨rfl, rfl, rfl⟩
    · exact ⟨rfl, rfl, rfl⟩
  · exact ⟨rfl, rfl, rfl⟩

/-- C10 as stated is false on the declarations in `src/`: `T6Model.h`
declares `onVisit(tgModelVisitor& r)` without a `const` qualifier, so not
every model's `onVisit` is declared const. -/
theorem onVisit_not_all_const :
    ¬ (∀ sig ∈ onVisitSigs, sig.constQualified = true) := by
  decide

/-- C10 (amended): invoking `onVisit` leaves the model's entire state —
rods, muscles, accumulated time, children — unchanged, since the default
dispatch performs no mutation; but the operation is declared `const` only
on `simpleMuscleNP`, while `T6Model` (and `T12SuperBallPayload`) declare
it non-const. -/
theorem onVisit_pure_dispatch :
    (∀ (m : TGModel) (r : Nat), m.onVisit r = m) ∧
    simpleMuscleNPOnVisitSig.constQualified = true ∧
    simpleMuscleNPOnVisitSig.visitorParamConst = true ∧
    t6ModelOnVisitSig.constQualified = false ∧
    t12SuperBallOnVisitSig.constQualified = false :=
  ⟨fun _ _ => rfl, rfl, rfl, rfl, rfl⟩
